import Mathlib

/-!
Verification development for the EDUGuard monitoring frontend.

The definitions below are a shallow embedding of the orchestration and
alerting code of the repository, principally
`frontend/src/components/ScriptRunner.tsx` (monitor lifecycle, polling
timers, heartbeat, status colors, fallback data) and
`frontend/src/services/api.ts` (request interceptor, per-monitor service
wrappers, sample-data synthesis).  JavaScript numbers that hold
percentages are modelled as rationals (`ℚ`), JSON strings as `String`
or `List Char`, and timers as explicit allocation pools.  Transient
UI-only state (snackbar notifications, loading spinners, expanded card
flags) is not part of the embedded state.
-/

/-- The four independent sensing domains coordinated by the frontend
(`postureService`, `stressService`, `cvsService`, `hydrationService`). -/
inductive MonitorType where
  | posture
  | stress
  | cvs
  | hydration
deriving DecidableEq, Repr

/-- The fixed enumeration order `[posture, stress, cvs, hydration]`, matching
the order in which the heartbeat callback in `ScriptRunner.tsx` visits the
monitor types. -/
def monitorList : List MonitorType :=
  [MonitorType.posture, MonitorType.stress, MonitorType.cvs, MonitorType.hydration]

/-- Material-UI chip colors returned by the `get*StatusColor` helpers of
`ScriptRunner.tsx` (`'default' | 'success' | 'warning' | 'error'`). -/
inductive StatusColor where
  | default
  | success
  | warning
  | error
deriving DecidableEq, Repr

/-- Alert severities named by the spec's tiered-threshold rule. -/
inductive Severity where
  | warning
  | error
deriving DecidableEq, Repr

/-- The `average` record of `PostureData` in `ScriptRunner.tsx`. -/
structure PostureAverage where
  good_posture_count : ℕ
  bad_posture_count : ℕ
  good_posture_percentage : ℚ
  bad_posture_percentage : ℚ
  total_samples : ℕ
deriving DecidableEq, Repr

/-- The `average` record of `StressData` in `ScriptRunner.tsx`. -/
structure StressAverage where
  low_stress_count : ℕ
  medium_stress_count : ℕ
  high_stress_count : ℕ
  low_stress_percentage : ℚ
  medium_stress_percentage : ℚ
  high_stress_percentage : ℚ
  total_samples : ℕ
deriving DecidableEq, Repr

/-- The `average` record of `CVSData` in `ScriptRunner.tsx`. -/
structure CVSAverage where
  avg_blink_count : ℚ
  low_blink_count : ℕ
  normal_blink_count : ℕ
  high_blink_count : ℕ
  low_blink_percentage : ℚ
  normal_blink_percentage : ℚ
  high_blink_percentage : ℚ
  total_samples : ℕ
  samples : Option ℕ
deriving DecidableEq, Repr

/-- The `average` record of `HydrationData` in `ScriptRunner.tsx`. -/
structure HydrationAverage where
  dry_lips_count : ℕ
  normal_lips_count : ℕ
  dry_lips_percentage : ℚ
  normal_lips_percentage : ℚ
  avg_dryness_score : ℚ
  total_samples : ℕ
  samples : Option ℕ
deriving DecidableEq, Repr

/-- `getPostureStatusColor` of `ScriptRunner.tsx`: `badPercentage > 60` gives
`'error'`, `badPercentage > 30` gives `'warning'`, otherwise `'success'`;
`'default'` when no average is available. -/
def getPostureStatusColor (d : Option PostureAverage) : StatusColor :=
  match d with
  | none => StatusColor.default
  | some a =>
      if a.bad_posture_percentage > 60 then StatusColor.error
      else if a.bad_posture_percentage > 30 then StatusColor.warning
      else StatusColor.success

/-- `getStressStatusColor` of `ScriptRunner.tsx`, keyed on
`high_stress_percentage`. -/
def getStressStatusColor (d : Option StressAverage) : StatusColor :=
  match d with
  | none => StatusColor.default
  | some a =>
      if a.high_stress_percentage > 60 then StatusColor.error
      else if a.high_stress_percentage > 30 then StatusColor.warning
      else StatusColor.success

/-- `getCVSStatusColor` of `ScriptRunner.tsx`: error when either the high or
the low blink percentage exceeds 60, warning when either exceeds 30. -/
def getCVSStatusColor (d : Option CVSAverage) : StatusColor :=
  match d with
  | none => StatusColor.default
  | some a =>
      if a.high_blink_percentage > 60 ∨ a.low_blink_percentage > 60 then StatusColor.error
      else if a.high_blink_percentage > 30 ∨ a.low_blink_percentage > 30 then StatusColor.warning
      else StatusColor.success

/-- `getHydrationStatusColor` of `ScriptRunner.tsx`, keyed on
`dry_lips_percentage`. -/
def getHydrationStatusColor (d : Option HydrationAverage) : StatusColor :=
  match d with
  | none => StatusColor.default
  | some a =>
      if a.dry_lips_percentage > 60 then StatusColor.error
      else if a.dry_lips_percentage > 30 then StatusColor.warning
      else StatusColor.success

/-- The alert severity a chip color stands for: `'error'` and `'warning'` are
alert severities, `'success'` and `'default'` carry none. -/
def toSeverity : StatusColor → Option Severity
  | StatusColor.error => some Severity.error
  | StatusColor.warning => some Severity.warning
  | _ => none

/-- The spec's tiered-threshold rule, stated in its own words: a negative-label
percentage above the high threshold 60 yields `error`, above the low threshold
30 yields `warning`, otherwise no alert.  Used only to be compared with the
classifier functions embedded from the source. -/
def severitySpec (p : ℚ) : Option Severity :=
  if p > 60 then some Severity.error
  else if p > 30 then some Severity.warning
  else none

/-- Opaque payload of a fetched data or alert record: the lifecycle code of
`ScriptRunner.tsx` stores and clears these values but never inspects them, so
they are embedded as their raw JSON text. -/
abbrev Payload := String

/-- Bookkeeping for the `setInterval` handles a monitor type creates.
`nextId` is the next fresh handle, `live` the handles of intervals that have
been created and not yet cleared, and `stored` the handle currently kept in
the corresponding `*PollingInterval` React state variable (the only one
`stop*DataPolling` can pass to `clearInterval`).  The one-shot `setTimeout`
calls for the initial fetch are not timers that repeat and are not tracked. -/
structure TimerPool where
  nextId : ℕ
  live : List ℕ
  stored : Option ℕ
deriving DecidableEq, Repr

/-- Per-monitor-type slice of the `ScriptRunner` component state: the
`*Monitoring` flag, the fetched `*Data`, the `*Alerts` list and the polling
interval bookkeeping. -/
structure MonUnit where
  monitoring : Bool
  data : Option Payload
  alerts : List Payload
  timers : TimerPool
deriving DecidableEq, Repr

/-- The embedded `ScriptRunner` component state: the shared
`webcamServerActive` flag plus one `MonUnit` per monitor type.  Snackbar
notifications and loading spinners are presentation-only and elided. -/
structure RunnerState where
  webcamActive : Bool
  units : MonitorType → MonUnit

/-- Replace the slice of one monitor type. -/
def updateUnit (t : MonitorType) (f : MonUnit → MonUnit) (s : RunnerState) : RunnerState :=
  { s with units := Function.update s.units t (f (s.units t)) }

/-- The component state on mount: webcam server inactive, no monitor running,
no data, no alerts, no timers. -/
def initState : RunnerState :=
  { webcamActive := false
    units := fun _ => { monitoring := false, data := none, alerts := [], timers := ⟨0, [], none⟩ } }

/-- Number of monitor types whose session is Running — the spec's
`holder_count` of capture leases, read off the four `*Monitoring` flags. -/
def holderCount (s : RunnerState) : ℕ :=
  (monitorList.filter (fun t => (s.units t).monitoring)).length

/-- `start*DataPolling` of `ScriptRunner.tsx`: a fresh 30-second
`setInterval` is created and its handle stored via `set*PollingInterval`,
overwriting (without clearing) whatever handle was stored before. -/
def startPolling (u : MonUnit) : MonUnit :=
  { u with timers := { nextId := u.timers.nextId + 1,
                       live := u.timers.live ++ [u.timers.nextId],
                       stored := some u.timers.nextId } }

/-- `stop*DataPolling` of `ScriptRunner.tsx`: the stored interval handle, if
any, is cleared and nulled; the fetched data and the alert list are reset
unconditionally. -/
def stopPolling (u : MonUnit) : MonUnit :=
  let pool :=
    match u.timers.stored with
    | some id => { u.timers with live := u.timers.live.erase id, stored := none }
    | none => u.timers
  { u with timers := pool, data := none, alerts := [] }

/-- `start*Monitoring` of `ScriptRunner.tsx` (success and failure paths).
For posture, stress and cvs: when `webcamServerActive` is false the webcam
server is first started (`wOk` is that call's outcome; on success the flag is
set, on failure the code proceeds regardless).  For hydration the webcam
pre-step queries the backend and component-local variables only — it never
touches the shared `webcamServerActive` state — so it leaves the embedded
state unchanged, and a pre-step failure that returns early is part of
`aOk = false`.  When the start API call succeeds (`aOk`) the monitoring flag
is set and data polling starts; otherwise only a notification is shown. -/
def applyStartMonitoring (t : MonitorType) (wOk aOk : Bool) (s : RunnerState) : RunnerState :=
  let s1 :=
    match t with
    | MonitorType.hydration => s
    | _ =>
        if s.webcamActive then s
        else if wOk then { s with webcamActive := true } else s
  if aOk then updateUnit t (fun u => startPolling { u with monitoring := true }) s1 else s1

/-- `stop*Monitoring` of `ScriptRunner.tsx`: when the stop API call succeeds
the monitoring flag is cleared and `stop*DataPolling` runs; on failure only a
notification is shown.  The shared `webcamServerActive` flag is not touched. -/
def applyStopMonitoring (t : MonitorType) (ok : Bool) (s : RunnerState) : RunnerState :=
  if ok then updateUnit t (fun u => stopPolling { u with monitoring := false }) s else s

/-- User-interface operations.  `clickMonitor t wOk aOk` presses the card
button of monitor type `t` (its `runScript` dispatch runs the stop handler
when the type is monitoring, the start handler otherwise, and the button is
disabled — a no-op — when the webcam server is inactive and the type is not
monitoring); `wOk`/`aOk` are the outcomes of the webcam sub-step and of the
start or stop API call.  `clickWebcam ok` presses the webcam-server button,
which toggles `webcamServerActive` when the API call succeeds. -/
inductive UiOp where
  | clickMonitor : MonitorType → Bool → Bool → UiOp
  | clickWebcam : Bool → UiOp
deriving DecidableEq, Repr

/-- One user-interface operation, per the handlers of `ScriptRunner.tsx`. -/
def applyUiOp (op : UiOp) (s : RunnerState) : RunnerState :=
  match op with
  | UiOp.clickMonitor t wOk aOk =>
      if (s.units t).monitoring then applyStopMonitoring t aOk s
      else if s.webcamActive then applyStartMonitoring t wOk aOk s
      else s
  | UiOp.clickWebcam ok =>
      if s.webcamActive then (if ok then { s with webcamActive := false } else s)
      else (if ok then { s with webcamActive := true } else s)

/-- Run a sequence of user-interface operations. -/
def runOps (ops : List UiOp) (s : RunnerState) : RunnerState :=
  ops.foldl (fun s op => applyUiOp op s) s

/-- Whether an operation is issued through a monitor type's card button. -/
def isMonitorClick : UiOp → Bool
  | UiOp.clickMonitor _ _ _ => true
  | UiOp.clickWebcam _ => false

/-- Heartbeat effect of `ScriptRunner.tsx`: it bails out when no monitoring
flag is set (mirroring the early `return` that tests stress, cvs, posture and
hydration in that order). -/
def heartbeatShouldRun (s : RunnerState) : Bool :=
  !(!(s.units MonitorType.stress).monitoring && !(s.units MonitorType.cvs).monitoring
    && !(s.units MonitorType.posture).monitoring && !(s.units MonitorType.hydration).monitoring)

/-- The monitor types the heartbeat callback services on each tick: for each
type whose monitoring flag is set it triggers a backend alert check
(`triggerAlertCheck`, the spec's alert evaluation) and refetches the recent
window data (`getRecentData`, the spec's `summarize`), visiting posture,
stress, cvs, hydration in order. -/
def heartbeatTargets (s : RunnerState) : List MonitorType :=
  monitorList.filter (fun t => (s.units t).monitoring)

/-- The heartbeat period: `setInterval(..., 120000)` — two minutes. -/
def heartbeatIntervalMs : ℕ := 120000

/-- React-effect semantics of the heartbeat `useEffect` with dependencies on
the four monitoring flags: whenever a flag changes the previous interval is
cleared by the effect cleanup, and a new interval (with the tick targets and
the 2-minute period) is installed iff some flag is set.  `none` means no
heartbeat timer exists. -/
def syncHeartbeat (s : RunnerState) : Option (List MonitorType × ℕ) :=
  if heartbeatShouldRun s then some (heartbeatTargets s, heartbeatIntervalMs) else none

lemma mem_monitorList (t : MonitorType) : t ∈ monitorList := by
  cases t <;> simp [monitorList]

lemma holderCount_pos_iff (s : RunnerState) :
    0 < holderCount s ↔ ∃ t, (s.units t).monitoring = true := by
  unfold holderCount
  rw [List.length_pos_iff_exists_mem]
  constructor
  · rintro ⟨t, ht⟩
    rw [List.mem_filter] at ht
    exact ⟨t, by simpa using ht.2⟩
  · rintro ⟨t, ht⟩
    exact ⟨t, List.mem_filter.mpr ⟨mem_monitorList t, by simpa using ht⟩⟩

lemma exists_monitoring_iff (s : RunnerState) :
    (∃ t, (s.units t).monitoring = true) ↔
      ((s.units MonitorType.posture).monitoring = true
        ∨ (s.units MonitorType.stress).monitoring = true
        ∨ (s.units MonitorType.cvs).monitoring = true
        ∨ (s.units MonitorType.hydration).monitoring = true) := by
  constructor
  · rintro ⟨t, ht⟩
    cases t
    · exact Or.inl ht
    · exact Or.inr (Or.inl ht)
    · exact Or.inr (Or.inr (Or.inl ht))
    · exact Or.inr (Or.inr (Or.inr ht))
  · rintro (h | h | h | h)
    exacts [⟨_, h⟩, ⟨_, h⟩, ⟨_, h⟩, ⟨_, h⟩]

lemma stopPolling_monitoring (u : MonUnit) : (stopPolling u).monitoring = u.monitoring := rfl

lemma step_preserves_capture (op : UiOp) (s : RunnerState)
    (hm : isMonitorClick op = true)
    (h : 0 < holderCount s → s.webcamActive = true) :
    0 < holderCount (applyUiOp op s) → (applyUiOp op s).webcamActive = true := by
  cases op with
  | clickWebcam ok => simp [isMonitorClick] at hm
  | clickMonitor t wOk aOk =>
    simp only [applyUiOp]
    cases hmon : (s.units t).monitoring with
    | true =>
      rw [if_pos rfl]
      cases aOk with
      | false => simpa [applyStopMonitoring] using h
      | true =>
        intro hpos
        rw [holderCount_pos_iff] at hpos
        obtain ⟨t', ht'⟩ := hpos
        by_cases het : t' = t
        · subst het
          simp [applyStopMonitoring, updateUnit, stopPolling] at ht'
        · have hunit : ((applyStopMonitoring t true s).units t') = s.units t' := by
            simp [applyStopMonitoring, updateUnit, Function.update_noteq het]
          rw [hunit] at ht'
          have : (applyStopMonitoring t true s).webcamActive = s.webcamActive := by
            simp [applyStopMonitoring, updateUnit]
          rw [this]
          exact h ((holderCount_pos_iff s).mpr ⟨t', ht'⟩)
    | false =>
      rw [if_neg (by simp)]
      cases hact : s.webcamActive with
      | false => simpa [hact] using h
      | true =>
        intro _
        cases t <;> cases aOk <;>
          simp [applyStartMonitoring, hact, updateUnit]

/-- C1 (amended).  For every sequence of operations issued through the four
monitor types' buttons, from any state where the capture invariant holds
(in particular the mount state), the holder count — the number of Running
monitor sessions — never goes negative, and a positive holder count implies
the `webcamServerActive` flag is set.  The converse direction of the
original claim (device open only if a holder exists) is refuted by
`capture_open_iff_holders_refuted`: stopping the last monitor leaves the
flag set.  Intermediate states are covered by instantiating the theorem at
each prefix of the operation sequence. -/
theorem capture_holder_invariant :
    ∀ (ops : List UiOp) (s : RunnerState),
      (∀ op ∈ ops, isMonitorClick op = true) →
      (0 < holderCount s → s.webcamActive = true) →
      0 ≤ (holderCount (runOps ops s) : ℤ) ∧
        (0 < holderCount (runOps ops s) → (runOps ops s).webcamActive = true) := by
  intro ops
  induction ops with
  | nil => exact fun s _ h => ⟨Int.natCast_nonneg _, h⟩
  | cons op rest ih =>
    intro s hops h
    have hop : isMonitorClick op = true := hops op (List.mem_cons_self op rest)
    have hrest : ∀ o ∈ rest, isMonitorClick o = true :=
      fun o ho => hops o (List.mem_cons_of_mem op ho)
    have hstep : runOps (op :: rest) s = runOps rest (applyUiOp op s) := rfl
    rw [hstep]
    exact ih (applyUiOp op s) hrest (step_preserves_capture op s hop h)

/-- The mount state with the webcam server already started. -/
def c1wState : RunnerState := { initState with webcamActive := true }

/-- Witness for `capture_holder_invariant`: starting posture monitoring from
a state with the webcam server active leaves a nonnegative holder count and,
the count being positive, an open device. -/
theorem capture_holder_invariant_witness :
    0 ≤ (holderCount (runOps [UiOp.clickMonitor MonitorType.posture true true] c1wState) : ℤ) ∧
      (runOps [UiOp.clickMonitor MonitorType.posture true true] c1wState).webcamActive = true :=
  ⟨(capture_holder_invariant [UiOp.clickMonitor MonitorType.posture true true] c1wState
      (by decide) (by decide)).1,
   (capture_holder_invariant [UiOp.clickMonitor MonitorType.posture true true] c1wState
      (by decide) (by decide)).2 (by decide)⟩

/-- Start the webcam server, start posture monitoring, then stop it again. -/
def c1Ops : List UiOp :=
  [UiOp.clickWebcam true,
   UiOp.clickMonitor MonitorType.posture true true,
   UiOp.clickMonitor MonitorType.posture true true]

/-- C1 counterexample.  After starting the webcam server, starting posture
monitoring and stopping it, the holder count is zero but `webcamServerActive`
is still true — the shared capture state is a plain boolean, not a reference
count, so "device open iff holder count is positive" is false. -/
theorem capture_open_iff_holders_refuted :
    ¬ (((runOps c1Ops initState).webcamActive = true) ↔ 0 < holderCount (runOps c1Ops initState)) := by
  decide

/-- The state reached by two consecutive successful `startPostureMonitoring`
invocations from a state with the webcam server active and posture idle. -/
def c3State : RunnerState :=
  applyStartMonitoring MonitorType.posture true true
    (applyStartMonitoring MonitorType.posture true true { initState with webcamActive := true })

/-- C3.  Two consecutive successful `startPostureMonitoring()` calls leave a
single Running posture session and a single holder of the capture device,
but two live 30-second polling intervals: the second `startDataPolling`
overwrites the stored handle (which is now `some 1`, the second interval)
without clearing the first, so duplicate timers accumulate and the first
interval can never be cancelled by `stopDataPolling` — contradicting the
claim (and spec §4.5) that at most one polling timer exists per monitor
type. -/
theorem duplicate_polling_timers_on_double_start :
    (c3State.units MonitorType.posture).timers.live.length = 2 ∧
      (c3State.units MonitorType.posture).timers.stored = some 1 ∧
      (c3State.units MonitorType.posture).monitoring = true ∧
      holderCount c3State = 1 ∧ c3State.webcamActive = true := by
  decide

/-- C9.  `stop*Monitoring` (and the `stop*DataPolling` it invokes) mutates
only the targeted monitor type's slice of the component state: every sibling
monitor type's session flag, fetched data, alert list and polling timers are
unchanged, as is the shared `webcamServerActive` flag, on both the success
and the failure path of the stop call. -/
theorem stop_isolates_siblings :
    ∀ (s : RunnerState) (t t' : MonitorType) (ok : Bool), t' ≠ t →
      (applyStopMonitoring t ok s).units t' = s.units t' ∧
        (applyStopMonitoring t ok s).webcamActive = s.webcamActive := by
  intro s t t' ok hne
  cases ok with
  | false => exact ⟨rfl, rfl⟩
  | true =>
    constructor
    · simp [applyStopMonitoring, updateUnit, Function.update_noteq hne]
    · simp [applyStopMonitoring, updateUnit]

/-- Witness for `stop_isolates_siblings`: stopping posture leaves the stress
slice and the webcam flag of the mount state unchanged. -/
theorem stop_isolates_siblings_witness :
    (applyStopMonitoring MonitorType.posture true initState).units MonitorType.stress
        = initState.units MonitorType.stress ∧
      (applyStopMonitoring MonitorType.posture true initState).webcamActive
        = initState.webcamActive :=
  stop_isolates_siblings initState MonitorType.posture MonitorType.stress true (by decide)

/-- C4.  The heartbeat timer exists iff at least one monitor type has a
Running session; when no session is Running the effect installs no timer
(and the cleanup of the previous effect run has cancelled any old one); and
an installed timer ticks every 2 minutes, servicing exactly the monitor
types whose session is Running (triggering the backend alert evaluation and
refetching the summary for each). -/
theorem heartbeat_runs_iff_running :
    ∀ s : RunnerState,
      ((syncHeartbeat s).isSome = true ↔ 0 < holderCount s) ∧
      (heartbeatShouldRun s = false → syncHeartbeat s = none) ∧
      (∀ tl ms, syncHeartbeat s = some (tl, ms) →
        ms = 2 * 60 * 1000 ∧ ∀ t, t ∈ tl ↔ (s.units t).monitoring = true) := by
  intro s
  refine ⟨?_, ?_, ?_⟩
  · rw [holderCount_pos_iff, exists_monitoring_iff]
    unfold syncHeartbeat heartbeatShouldRun
    cases hp : (s.units MonitorType.posture).monitoring <;>
      cases hs : (s.units MonitorType.stress).monitoring <;>
        cases hc : (s.units MonitorType.cvs).monitoring <;>
          cases hh : (s.units MonitorType.hydration).monitoring <;>
            simp [hp, hs, hc, hh]
  · intro hfalse
    unfold syncHeartbeat
    rw [hfalse]
    rfl
  · intro tl ms heq
    unfold syncHeartbeat at heq
    by_cases hrun : heartbeatShouldRun s = true
    · rw [if_pos hrun] at heq
      obtain ⟨rfl, rfl⟩ : tl = heartbeatTargets s ∧ ms = heartbeatIntervalMs := by
        have hpair := Option.some.inj heq
        exact ⟨congrArg Prod.fst hpair.symm, congrArg Prod.snd hpair.symm⟩
      refine ⟨rfl, fun t => ?_⟩
      unfold heartbeatTargets
      rw [List.mem_filter]
      simp [mem_monitorList]
    · rw [if_neg hrun] at heq
      exact absurd heq (by simp)

/-- A state with exactly the posture session Running. -/
def c4wState : RunnerState :=
  applyStartMonitoring MonitorType.posture true true { initState with webcamActive := true }

/-- Witness for `heartbeat_runs_iff_running`: with posture Running the
heartbeat timer exists, ticks every two minutes and services exactly
posture; with nothing Running (the mount state) it does not exist. -/
theorem heartbeat_runs_iff_running_witness :
    (120000 = 2 * 60 * 1000 ∧
      (MonitorType.posture ∈ [MonitorType.posture]
        ↔ (c4wState.units MonitorType.posture).monitoring = true)) ∧
      syncHeartbeat initState = none :=
  ⟨⟨((heartbeat_runs_iff_running c4wState).2.2 [MonitorType.posture] 120000 (by decide)).1,
    ((heartbeat_runs_iff_running c4wState).2.2 [MonitorType.posture] 120000
        (by decide)).2 MonitorType.posture⟩,
   (heartbeat_runs_iff_running initState).2.1 (by decide)⟩

/-- C2.  For every monitor type the chip-color classifier implements exactly
the spec's tiered-threshold rule on the aggregated negative-label
percentage: above 60 the `error` severity, above 30 the `warning` severity,
otherwise no alert severity.  For posture the governing percentage is
`bad_posture_percentage`, for stress `high_stress_percentage`, for
hydration `dry_lips_percentage`, and for eye strain the larger of the two
negative blink percentages (the code tests `high > x || low > x`, which is
`max low high > x`). -/
theorem severity_tiers_match_spec :
    (∀ a : PostureAverage,
        toSeverity (getPostureStatusColor (some a)) = severitySpec a.bad_posture_percentage) ∧
    (∀ a : StressAverage,
        toSeverity (getStressStatusColor (some a)) = severitySpec a.high_stress_percentage) ∧
    (∀ a : CVSAverage,
        toSeverity (getCVSStatusColor (some a))
          = severitySpec (max a.low_blink_percentage a.high_blink_percentage)) ∧
    (∀ a : HydrationAverage,
        toSeverity (getHydrationStatusColor (some a)) = severitySpec a.dry_lips_percentage) := by
  refine ⟨?_, ?_, ?_, ?_⟩
  · intro a
    by_cases h60 : (60 : ℚ) < a.bad_posture_percentage
    · simp [getPostureStatusColor, severitySpec, toSeverity, h60]
    · by_cases h30 : (30 : ℚ) < a.bad_posture_percentage <;>
        simp [getPostureStatusColor, severitySpec, toSeverity, h60, h30]
  · intro a
    by_cases h60 : (60 : ℚ) < a.high_stress_percentage
    · simp [getStressStatusColor, severitySpec, toSeverity, h60]
    · by_cases h30 : (30 : ℚ) < a.high_stress_percentage <;>
        simp [getStressStatusColor, severitySpec, toSeverity, h60, h30]
  · intro a
    by_cases hh60 : (60 : ℚ) < a.high_blink_percentage <;>
      by_cases hl60 : (60 : ℚ) < a.low_blink_percentage <;>
        by_cases hh30 : (30 : ℚ) < a.high_blink_percentage <;>
          by_cases hl30 : (30 : ℚ) < a.low_blink_percentage <;>
            simp [getCVSStatusColor, severitySpec, toSeverity, lt_max_iff,
              hh60, hl60, hh30, hl30]
  · intro a
    by_cases h60 : (60 : ℚ) < a.dry_lips_percentage
    · simp [getHydrationStatusColor, severitySpec, toSeverity, h60]
    · by_cases h30 : (30 : ℚ) < a.dry_lips_percentage <;>
        simp [getHydrationStatusColor, severitySpec, toSeverity, h60, h30]

/-- Report timeframes accepted by `generateSampleHydrationData` in
`api.ts`. -/
inductive Timeframe where
  | daily
  | weekly
  | monthly
deriving DecidableEq, Repr

/-- Hour labels used for the `'daily'` timeframe. -/
def dailyLabels : List String :=
  ["8 AM", "9 AM", "10 AM", "11 AM", "12 PM", "1 PM", "2 PM", "3 PM", "4 PM", "5 PM", "6 PM"]

/-- Day labels used for the `'weekly'` timeframe. -/
def weeklyLabels : List String :=
  ["Monday", "Tuesday", "Wednesday", "Thursday", "Friday", "Saturday", "Sunday"]

/-- Week labels used for the `'monthly'` timeframe. -/
def monthlyLabels : List String :=
  ["Week 1", "Week 2", "Week 3", "Week 4"]

/-- Labels chosen by `generateSampleHydrationData` for a timeframe;
`dataPoints` in the source is their length. -/
def sampleLabels : Timeframe → List String
  | Timeframe.daily => dailyLabels
  | Timeframe.weekly => weeklyLabels
  | Timeframe.monthly => monthlyLabels

/-- Rounding to two decimals, the effect of
`parseFloat(x.toFixed(2))` on the positive scores produced here. -/
def roundTo2 (q : ℚ) : ℚ := (⌊q * 100 + 1 / 2⌋ : ℚ) / 100

/-- The normal-lips percentages of the sample data:
`Math.floor(Math.random() * 40) + 50` for each data point, with `draw i`
standing for the i-th value of `Math.floor(Math.random() * 40)` (an
integer in `[0, 40)`). -/
def sampleNormal (tf : Timeframe) (draw : ℕ → ℕ) : List ℚ :=
  (List.range (sampleLabels tf).length).map (fun i => (draw i : ℚ) + 50)

/-- Shape of the object returned by `generateSampleHydrationData`. -/
structure SampleHydrationData where
  labels : List String
  normal_lips_percentage : List ℚ
  dry_lips_percentage : List ℚ
  avg_dryness_score : List ℚ
  is_sample_data : Bool
deriving DecidableEq, Repr

/-- `generateSampleHydrationData` of `api.ts`: labels per timeframe, random
normal-lips percentages in `[50, 90)`, dry-lips percentages defined as their
complements to 100, a derived dryness score rounded to two decimals, and the
`is_sample_data` flag set. -/
def generateSampleHydrationData (tf : Timeframe) (draw : ℕ → ℕ) : SampleHydrationData :=
  { labels := sampleLabels tf
    normal_lips_percentage := sampleNormal tf draw
    dry_lips_percentage := (sampleNormal tf draw).map (fun v => 100 - v)
    avg_dryness_score := (sampleNormal tf draw).map (fun v => roundTo2 (1 - v / 100 * (8 / 10)))
    is_sample_data := true }

/-- The `HydrationData` interface of `ScriptRunner.tsx`. -/
structure HydrationData where
  predictions : List Payload
  average : Option HydrationAverage
  minutes : ℕ
  user_id : Option String
  is_fallback_data : Bool
deriving DecidableEq, Repr

/-- The fallback average `ScriptRunner.tsx` substitutes when hydration data
is missing or malformed: no dry samples, one normal sample, percentages
0 / 100, dryness score 0.1. -/
def hydrationFallbackAverage : HydrationAverage :=
  { dry_lips_count := 0, normal_lips_count := 1, dry_lips_percentage := 0,
    normal_lips_percentage := 100, avg_dryness_score := 1 / 10,
    total_samples := 1, samples := some 1 }

/-- The fallback `setHydrationData` record of `ScriptRunner.tsx`, with
`is_fallback_data: true`. -/
def hydrationFallbackData : HydrationData :=
  { predictions := [], average := some hydrationFallbackAverage, minutes := 5,
    user_id := none, is_fallback_data := true }

lemma zip_complement (l : List ℚ) :
    List.zipWith (fun a b => a + b) (l.map (fun v => 100 - v)) l
      = List.replicate l.length 100 := by
  induction l with
  | nil => rfl
  | cons x xs ih =>
    simp only [List.map_cons, List.zipWith_cons_cons, List.length_cons, List.replicate_succ]
    rw [ih]
    congr 1
    ring

/-- C5.  Synthesized window summaries are well-formed: in every sample
hydration data set the dry- and normal-lips percentages of each data point
sum to exactly 100 and the `is_sample_data` flag is set, whatever the random
draws; and the fallback summary substituted for an empty or malformed window
carries the explicit `is_fallback_data` flag with the baseline percentages
0 and 100 (summing to 100) and a positive sample count — no `NaN` and no
division by zero can arise. -/
theorem sample_and_fallback_summaries_well_formed :
    (∀ (tf : Timeframe) (draw : ℕ → ℕ),
        List.zipWith (fun a b => a + b)
            (generateSampleHydrationData tf draw).dry_lips_percentage
            (generateSampleHydrationData tf draw).normal_lips_percentage
          = List.replicate (generateSampleHydrationData tf draw).labels.length 100 ∧
        (generateSampleHydrationData tf draw).is_sample_data = true) ∧
    hydrationFallbackAverage.dry_lips_percentage
        + hydrationFallbackAverage.normal_lips_percentage = 100 ∧
    hydrationFallbackData.is_fallback_data = true ∧
    hydrationFallbackData.average = some hydrationFallbackAverage ∧
    0 < hydrationFallbackAverage.total_samples := by
  refine ⟨?_, by norm_num [hydrationFallbackAverage], rfl, rfl, by norm_num [hydrationFallbackAverage]⟩
  intro tf draw
  refine ⟨?_, rfl⟩
  show List.zipWith (fun a b => a + b)
      ((sampleNormal tf draw).map (fun v => 100 - v)) (sampleNormal tf draw)
    = List.replicate (sampleLabels tf).length 100
  rw [zip_complement]
  simp [sampleNormal]

/-- Failure modes of the axios transport underlying the service wrappers:
timeouts (`ECONNABORTED`), network errors, HTTP error statuses. -/
inductive TransportError where
  | timeout
  | network
  | httpError (code : ℕ)
deriving DecidableEq, Repr

/-- The `data` object of a `/status` response. -/
structure StatusData where
  is_monitoring : Bool
  webcam_server_active : Bool
deriving DecidableEq, Repr

/-- Response of a `get*Status` call. -/
structure StatusResponse where
  status : String
  data : StatusData
deriving DecidableEq, Repr

/-- The `data` object of a `/data/recent` response; `α` is the per-monitor
`average` record type. -/
structure DataBody (α : Type) where
  predictions : List Payload
  average : Option α
  minutes : ℕ
  user_id : Option String
deriving DecidableEq, Repr

/-- Response of a `getRecentData` call. -/
structure DataResponse (α : Type) where
  status : String
  data : DataBody α
deriving DecidableEq, Repr

/-- The `data` object of an `/alerts/recent` response. -/
structure AlertsBody where
  alerts : List Payload
  total_count : ℕ
deriving DecidableEq, Repr

/-- Response of a `getRecentAlerts` call. -/
structure AlertsResponse where
  status : String
  data : AlertsBody
deriving DecidableEq, Repr

/-- Default payload returned by the `getStatus` catch handler:
`{ status: 'error', data: { is_monitoring: false, webcam_server_active: false } }`. -/
def defaultStatusResponse : StatusResponse :=
  { status := "error", data := { is_monitoring := false, webcam_server_active := false } }

/-- Default payload returned by the `getRecentData` catch handler:
`{ status: 'error', data: { predictions: [], average: null, minutes, user_id: null } }`. -/
def defaultDataResponse (α : Type) (minutes : ℕ) : DataResponse α :=
  { status := "error",
    data := { predictions := [], average := none, minutes := minutes, user_id := none } }

/-- Default payload returned by the `getRecentAlerts` catch handler:
`{ status: 'error', data: { alerts: [], total_count: 0 } }`. -/
def defaultAlertsResponse : AlertsResponse :=
  { status := "error", data := { alerts := [], total_count := 0 } }

/-- `get*Status` of `api.ts`.  The four service objects (`postureService`,
`stressService`, `cvsService`, `hydrationService`) define textually
identical read operations modulo the endpoint path, so one definition
parametrized by the monitor type embeds all four: the awaited transport
result is returned on success, and the catch handler returns the explicit
default payload on any failure. -/
def monitorService.getStatus (t : MonitorType)
    (r : Except TransportError StatusResponse) : StatusResponse :=
  match r with
  | Except.ok v => v
  | Except.error _ => defaultStatusResponse

/-- `getRecentData(minutes, includeAverage)` of each service of `api.ts`;
the default payload echoes the `minutes` argument. -/
def monitorService.getRecentData (α : Type) (t : MonitorType) (minutes : ℕ)
    (r : Except TransportError (DataResponse α)) : DataResponse α :=
  match r with
  | Except.ok v => v
  | Except.error _ => defaultDataResponse α minutes

/-- `getRecentAlerts(limit)` of each service of `api.ts`. -/
def monitorService.getRecentAlerts (t : MonitorType) (lim : ℕ)
    (r : Except TransportError AlertsResponse) : AlertsResponse :=
  match r with
  | Except.ok v => v
  | Except.error _ => defaultAlertsResponse

/-- C6.  For every monitor type's service, the read operations `getStatus`,
`getRecentData` and `getRecentAlerts` never propagate a transport error:
they are total functions of the underlying transport result, returning it
unchanged on success and the explicit defaults — monitoring off, empty
predictions with a null average, empty alert list — on any failure. -/
theorem query_api_degrades_to_defaults :
    ∀ (t : MonitorType) (e : TransportError) (α : Type) (m lim : ℕ),
      monitorService.getStatus t (Except.error e) = defaultStatusResponse ∧
      defaultStatusResponse.data.is_monitoring = false ∧
      defaultStatusResponse.data.webcam_server_active = false ∧
      monitorService.getRecentData α t m (Except.error e) = defaultDataResponse α m ∧
      (defaultDataResponse α m).data.predictions = [] ∧
      (defaultDataResponse α m).data.average = none ∧
      monitorService.getRecentAlerts t lim (Except.error e) = defaultAlertsResponse ∧
      defaultAlertsResponse.data.alerts = [] ∧
      (∀ v, monitorService.getStatus t (Except.ok v) = v) ∧
      (∀ v : DataResponse α, monitorService.getRecentData α t m (Except.ok v) = v) ∧
      (∀ v, monitorService.getRecentAlerts t lim (Except.ok v) = v) :=
  fun _ _ α m _ =>
    ⟨rfl, rfl, rfl, rfl, rfl, rfl, rfl, rfl, fun _ => rfl, fun _ => rfl, fun _ => rfl⟩

/-- The default CVS average substituted by `startCVSDataPolling` when the
initial fetch fails or returns a non-success status: baseline blink data
with one normal sample. -/
def defaultCvsAverage : CVSAverage :=
  { avg_blink_count := 18, low_blink_count := 0, normal_blink_count := 1,
    high_blink_count := 0, low_blink_percentage := 0, normal_blink_percentage := 100,
    high_blink_percentage := 0, total_samples := 1, samples := some 1 }

/-- The default CVS data record of `startCVSDataPolling`. -/
def defaultCvsData : DataBody CVSAverage :=
  { predictions := [], average := some defaultCvsAverage, minutes := 5, user_id := none }

/-- The slice of component state the initial CVS fetch can touch: the
monitoring flag set by the successful `startMonitoring` call, and the data
record it writes. -/
structure CvsSession where
  cvsMonitoring : Bool
  cvsData : Option (DataBody CVSAverage)
deriving DecidableEq, Repr

/-- Whether the initial CVS data fetch failed to obtain classifier data:
either the transport threw or the response status is not `'success'`. -/
def initialCvsFetchFailed (r : Except TransportError (DataResponse CVSAverage)) : Bool :=
  match r with
  | Except.error _ => true
  | Except.ok v => !(v.status == "success")

/-- The initial-fetch handler of `startCVSDataPolling` in `ScriptRunner.tsx`:
on a successful response it stores the response data, otherwise (non-success
status, or an exception caught by the surrounding try) it stores the default
baseline record; the monitoring flag is not touched. -/
def applyInitialCvsFetch (r : Except TransportError (DataResponse CVSAverage))
    (s : CvsSession) : CvsSession :=
  { s with cvsData :=
      match r with
      | Except.ok v => if v.status = "success" then some v.data else some defaultCvsData
      | Except.error _ => some defaultCvsData }

/-- C7.  When eye-strain classifier data cannot be obtained at session start,
the session keeps its Running flag and a well-formed synthetic baseline is
substituted: `normal_blink_percentage = 100`, `low_blink_percentage = 0`,
`high_blink_percentage = 0` and a positive `total_samples`, rather than an
error result. -/
theorem cvs_baseline_on_missing_data :
    ∀ (r : Except TransportError (DataResponse CVSAverage)) (s : CvsSession),
      initialCvsFetchFailed r = true →
      (applyInitialCvsFetch r s).cvsMonitoring = s.cvsMonitoring ∧
      (applyInitialCvsFetch r s).cvsData = some defaultCvsData ∧
      defaultCvsData.average = some defaultCvsAverage ∧
      defaultCvsAverage.normal_blink_percentage = 100 ∧
      defaultCvsAverage.low_blink_percentage = 0 ∧
      defaultCvsAverage.high_blink_percentage = 0 ∧
      0 < defaultCvsAverage.total_samples := by
  intro r s h
  refine ⟨rfl, ?_, rfl, rfl, rfl, rfl, by norm_num [defaultCvsAverage]⟩
  cases r with
  | error e => rfl
  | ok v =>
    have hne : ¬ v.status = "success" := by
      simpa [initialCvsFetchFailed] using h
    simp [applyInitialCvsFetch, hne]

/-- Witness for `cvs_baseline_on_missing_data`: a network failure during the
initial fetch of a Running session. -/
theorem cvs_baseline_on_missing_data_witness :
    (applyInitialCvsFetch (Except.error TransportError.network) ⟨true, none⟩).cvsMonitoring
        = CvsSession.cvsMonitoring ⟨true, none⟩ ∧
      (applyInitialCvsFetch (Except.error TransportError.network) ⟨true, none⟩).cvsData
        = some defaultCvsData ∧
      defaultCvsData.average = some defaultCvsAverage ∧
      defaultCvsAverage.normal_blink_percentage = 100 ∧
      defaultCvsAverage.low_blink_percentage = 0 ∧
      defaultCvsAverage.high_blink_percentage = 0 ∧
      0 < defaultCvsAverage.total_samples :=
  cvs_baseline_on_missing_data (Except.error TransportError.network) ⟨true, none⟩ rfl

/-- Modelled from the spec: the backend Alert Evaluator with its
`AlertSuppressionState` is not under `src/` (only the client's
`triggerAlertCheck` callers are), so it is embedded from spec §4.4: on each
evaluation tick with negative-label percentage `p`, an `error`-level alert
fires when `p` exceeds the high threshold 60 and the per-(user, monitor
type, level) suppression state allows it — never fired before, or
`now − last_fired_at` at least the cooldown; on emission `last_fired_at` is
updated.  The state is `(last_fired_at, emitted alert times)` for one
(user, monitor type, error level). -/
def alertCooldownStep (cooldown : ℕ) (st : Option ℕ × List ℕ) (tick : ℕ × ℚ) :
    Option ℕ × List ℕ :=
  if 60 < tick.2 then
    match st.1 with
    | none => (some tick.1, st.2 ++ [tick.1])
    | some last =>
        if tick.1 - last < cooldown then st
        else (some tick.1, st.2 ++ [tick.1])
  else st

/-- Modelled from the spec: run the Alert Evaluator over a stream of
evaluation ticks `(time, percentage)` from a fresh suppression state,
returning the final `last_fired_at` and the emitted alert times. -/
def evalRun (cooldown : ℕ) (ticks : List (ℕ × ℚ)) : Option ℕ × List ℕ :=
  ticks.foldl (alertCooldownStep cooldown) (none, [])

/-- A sustained stream: one evaluation tick per time unit at times
`0, 1, …, n − 1`, each reporting the same percentage `p`. -/
def unitTicks (n : ℕ) (p : ℚ) : List (ℕ × ℚ) :=
  (List.range n).map (fun i => (i, p))

lemma evalRun_unitTicks (cd : ℕ) (p : ℚ) (hcd : 0 < cd) (hp : 60 < p) :
    ∀ n : ℕ, evalRun cd (unitTicks (n + 1) p)
      = (some (cd * (n / cd)), (List.range (n + 1)).filter (fun t => t % cd == 0)) := by
  intro n
  induction n with
  | zero =>
    simp [evalRun, unitTicks, alertCooldownStep, hp, List.range_succ, List.range_zero]
  | succ m ih =>
    have hsplit : unitTicks (m + 1 + 1) p = unitTicks (m + 1) p ++ [(m + 1, p)] := by
      simp [unitTicks, List.range_succ]
    have hfold : evalRun cd (unitTicks (m + 1) p ++ [(m + 1, p)])
        = alertCooldownStep cd (evalRun cd (unitTicks (m + 1) p)) (m + 1, p) := by
      simp [evalRun, List.foldl_append]
    rw [hsplit, hfold, ih]
    have hmod := Nat.div_add_mod m cd
    have hrlt : m % cd < cd := Nat.mod_lt m hcd
    by_cases hcase : m % cd + 1 < cd
    · have hsub : m + 1 - cd * (m / cd) < cd := by omega
      have hcomm : cd * (m / cd) = (m / cd) * cd := Nat.mul_comm _ _
      have hm1 : m + 1 = (m % cd + 1) + (m / cd) * cd := by omega
      have hdiv : (m + 1) / cd = m / cd := by
        rw [hm1, Nat.add_mul_div_right _ _ hcd, Nat.div_eq_of_lt hcase, Nat.zero_add]
      have hne : ((m + 1) % cd == 0) = false := by
        have hmodd : (m + 1) % cd = m % cd + 1 := by
          rw [hm1, Nat.add_mul_mod_self_right, Nat.mod_eq_of_lt hcase]
        simp [hmodd]
      have hF : List.filter (fun t => t % cd == 0) (List.range (m + 1 + 1))
          = List.filter (fun t => t % cd == 0) (List.range (m + 1)) := by
        rw [List.range_succ, List.filter_append]
        simp [hne]
      simp [alertCooldownStep, hp, hsub, hdiv, hF]
    · have hceq : m % cd + 1 = cd := by omega
      have hsub : ¬ (m + 1 - cd * (m / cd) < cd) := by omega
      have hm1 : m + 1 = cd * (m / cd + 1) := by
        have hms : cd * (m / cd + 1) = cd * (m / cd) + cd := by rw [Nat.mul_succ]
        omega
      have hdiv : (m + 1) / cd = m / cd + 1 := by
        rw [hm1, Nat.mul_div_cancel_left _ hcd]
      have hmodz : ((m + 1) % cd == 0) = true := by
        have hz : (m + 1) % cd = 0 := by rw [hm1]; exact Nat.mul_mod_right cd _
        simp [hz]
      have hF : List.filter (fun t => t % cd == 0) (List.range (m + 1 + 1))
          = List.filter (fun t => t % cd == 0) (List.range (m + 1)) ++ [m + 1] := by
        rw [List.range_succ, List.filter_append]
        simp [hmodz]
      simp [alertCooldownStep, hp, hsub, hF, hdiv, ← hm1]

/-- C8 (spec-modelled).  For a sustained stream whose negative-label
percentage `p` stays above 60 at every evaluation tick (one tick per time
unit, for `n` units covering the cooldown window in question), the Alert
Evaluator emits exactly one error-level alert per cooldown interval
`[k·cd, (k+1)·cd)` for the (user, monitor type, error) suppression key —
one per interval, not one per evaluation tick. -/
theorem alert_cooldown_dedup (cd n k : ℕ) (p : ℚ) (hcd : 0 < cd) (hp : 60 < p)
    (hk : (k + 1) * cd ≤ n) :
    ((evalRun cd (unitTicks n p)).2.filter
        (fun t => decide (k * cd ≤ t ∧ t < (k + 1) * cd))).length = 1 := by
  obtain ⟨m, rfl⟩ : ∃ m, n = m + 1 := by
    cases n with
    | zero =>
      exfalso
      have hpos : 0 < (k + 1) * cd := Nat.mul_pos (Nat.succ_pos k) hcd
      omega
    | succ m => exact ⟨m, rfl⟩
  rw [evalRun_unitTicks cd p hcd hp m]
  have huniq : ∀ t, (t % cd = 0 ∧ k * cd ≤ t ∧ t < (k + 1) * cd) ↔ t = k * cd := by
    intro t
    constructor
    · rintro ⟨h1, h2, h3⟩
      obtain ⟨j, rfl⟩ := Nat.dvd_of_mod_eq_zero h1
      have hk1 : k ≤ j := by
        rw [mul_comm k cd] at h2
        exact Nat.le_of_mul_le_mul_left h2 hcd
      have hk2 : j < k + 1 := by
        rw [mul_comm (k + 1) cd] at h3
        exact Nat.lt_of_mul_lt_mul_left h3
      have hjk : j = k := by omega
      rw [hjk, mul_comm]
    · rintro rfl
      refine ⟨Nat.mul_mod_left k cd, le_refl _, ?_⟩
      have hsucc : (k + 1) * cd = k * cd + cd := Nat.succ_mul k cd
      omega
  have hchar : ∀ t ∈ List.range (m + 1),
      ((decide (k * cd ≤ t ∧ t < (k + 1) * cd) && (t % cd == 0)) = true
        ↔ (t == k * cd) = true) := by
    intro t _
    simp only [Bool.and_eq_true, beq_iff_eq, decide_eq_true_eq]
    constructor
    · rintro ⟨⟨h2, h3⟩, h1⟩
      exact (huniq t).mp ⟨h1, h2, h3⟩
    · intro ht
      have h := (huniq t).mpr ht
      exact ⟨⟨h.2.1, h.2.2⟩, h.1⟩
  rw [List.filter_filter, ← List.countP_eq_length_filter, List.countP_congr hchar]
  have hcount : (List.range (m + 1)).countP (fun t => t == k * cd)
      = (List.range (m + 1)).count (k * cd) := rfl
  rw [hcount]
  have hmem : k * cd ∈ List.range (m + 1) := by
    rw [List.mem_range]
    have hsucc : (k + 1) * cd = k * cd + cd := Nat.succ_mul k cd
    omega
  exact List.count_eq_one_of_mem (List.nodup_range _) hmem

/-- Witness for `alert_cooldown_dedup`: cooldown 2, six unit ticks at 61%,
second cooldown interval `[2, 4)`. -/
theorem alert_cooldown_dedup_witness :
    ((evalRun 2 (unitTicks 6 61)).2.filter
        (fun t => decide (1 * 2 ≤ t ∧ t < (1 + 1) * 2))).length = 1 :=
  alert_cooldown_dedup 2 6 1 61 (by norm_num) (by norm_num) (by norm_num)

/-- Boolean prefix test on character lists (the building block of the
JavaScript `String.prototype.includes` checks in the interceptor). -/
def isPre : List Char → List Char → Bool
  | [], _ => true
  | _ :: _, [] => false
  | a :: as, b :: bs => a == b && isPre as bs

/-- `url.includes(pat)` for a nonempty pattern: some suffix of the list has
the pattern as a prefix. -/
def containsSub (pat : List Char) : List Char → Bool
  | [] => false
  | c :: rest => isPre pat (c :: rest) || containsSub pat rest

/-- Number of positions at which the pattern occurs. -/
def countSub (pat : List Char) : List Char → ℕ
  | [] => 0
  | c :: rest => (if isPre pat (c :: rest) then 1 else 0) + countSub pat rest

/-- The substring `'userId='` the interceptor tests for and appends. -/
def userIdKey : List Char := ['u', 's', 'e', 'r', 'I', 'd', '=']

/-- The part of an axios request config the interceptor manipulates: the
request URL and the `X-User-ID` header. -/
structure ReqConfig where
  url : List Char
  xUserIdHeader : Option (List Char)
deriving DecidableEq, Repr

/-- URL rewriting of the request interceptor in `api.ts`: when the URL is
truthy (nonempty) and has no `'?'`, append `?userId=<id>`; else when it is
truthy and does not contain `'userId='`, append `&userId=<id>`; otherwise
leave it unchanged. -/
def interceptUrl (uid url : List Char) : List Char :=
  if ¬url.isEmpty ∧ containsSub ['?'] url = false then
    url ++ '?' :: (userIdKey ++ uid)
  else if ¬url.isEmpty ∧ containsSub userIdKey url = false then
    url ++ '&' :: (userIdKey ++ uid)
  else url

/-- The request interceptor of `api.ts`: when a `userId` is present in local
storage it sets the `X-User-ID` header to it and rewrites the URL; with no
stored `userId` the config passes through unchanged. -/
def interceptRequest (uid : Option (List Char)) (c : ReqConfig) : ReqConfig :=
  match uid with
  | some u => { url := interceptUrl u c.url, xUserIdHeader := some u }
  | none => c

/-- C10 counterexample.  For the URL `"abuserId=1"` — which contains
`'userId='` but no `'?'` — the interceptor appends `?userId=u1`, so the
rewritten URL contains `'userId='` twice, not exactly once. -/
theorem interceptor_exactly_once_refuted :
    ¬ (countSub userIdKey
        ((interceptRequest (some ['u', '1'])
          { url := ['a', 'b', 'u', 's', 'e', 'r', 'I', 'd', '=', '1'],
            xUserIdHeader := none }).url) = 1) := by
  decide

lemma countSub_append_of_no_occurrence (pat a b : List Char)
    (h : ∀ i, i < a.length → isPre pat (a.drop i ++ b) = false) :
    countSub pat (a ++ b) = countSub pat b := by
  induction a with
  | nil => rfl
  | cons x xs ih =>
    have h0 : isPre pat (x :: (xs ++ b)) = false := by
      simpa using h 0 (Nat.succ_pos _)
    have hrest : ∀ i, i < xs.length → isPre pat (xs.drop i ++ b) = false := by
      intro i hi
      simpa using h (i + 1) (by simp only [List.length_cons]; omega)
    simp [countSub, h0, ih hrest]

lemma isPre_of_isPre_append (pat s t : List Char)
    (hlen : pat.length ≤ s.length) (h : isPre pat (s ++ t) = true) :
    isPre pat s = true := by
  induction pat generalizing s with
  | nil => rfl
  | cons p ps ih =>
    cases s with
    | nil => simp at hlen
    | cons x xs =>
      simp only [List.cons_append, isPre, Bool.and_eq_true] at h ⊢
      exact ⟨h.1, ih xs (by simpa using hlen) h.2⟩

lemma mem_of_isPre_append (pat : List Char) (c : Char) :
    ∀ (s t : List Char), isPre pat (s ++ c :: t) = true → s.length < pat.length → c ∈ pat := by
  intro s
  induction s generalizing pat with
  | nil =>
    intro t h hlen
    cases pat with
    | nil => simp at hlen
    | cons p ps =>
      simp only [List.nil_append, isPre, Bool.and_eq_true, beq_iff_eq] at h
      rw [h.1]
      exact List.mem_cons_self _ _
  | cons x xs ih =>
    intro t h hlen
    cases pat with
    | nil => simp at hlen
    | cons p ps =>
      simp only [List.cons_append, isPre, Bool.and_eq_true] at h
      exact List.mem_cons_of_mem _ (ih ps t h.2 (by simpa using hlen))

lemma containsSub_of_isPre_drop (pat l : List Char) :
    ∀ i, isPre pat (l.drop i) = true → pat ≠ [] → containsSub pat l = true := by
  induction l with
  | nil =>
    intro i h hne
    rw [List.drop_nil] at h
    cases pat with
    | nil => exact absurd rfl hne
    | cons p ps => simp [isPre] at h
  | cons x xs ih =>
    intro i h hne
    cases i with
    | zero =>
      rw [List.drop_zero] at h
      simp [containsSub, h]
    | succ j =>
      have h' : isPre pat (xs.drop j) = true := by simpa using h
      simp [containsSub, ih j h' hne]

lemma countSub_key_fragment (uid : List Char) (sep : Char)
    (hsep : ('u' == sep) = false) (hu : countSub userIdKey uid = 0) :
    countSub userIdKey (sep :: (userIdKey ++ uid)) = 1 := by
  simp [countSub, isPre, userIdKey, hsep]
  exact hu

lemma no_key_occurrence_before_append (url uid : List Char) (sep : Char)
    (hsep : sep ∉ userIdKey) (hurl : containsSub userIdKey url = false) :
    ∀ i, i < url.length →
      isPre userIdKey (url.drop i ++ sep :: (userIdKey ++ uid)) = false := by
  intro i hi
  cases hval : isPre userIdKey (url.drop i ++ sep :: (userIdKey ++ uid)) with
  | false => rfl
  | true =>
    exfalso
    rcases Nat.lt_or_ge (url.drop i).length userIdKey.length with hlt | hge
    · exact hsep (mem_of_isPre_append userIdKey sep (url.drop i) (userIdKey ++ uid) hval hlt)
    · have h1 : isPre userIdKey (url.drop i) = true :=
        isPre_of_isPre_append _ _ _ hge hval
      have h2 : containsSub userIdKey url = true :=
        containsSub_of_isPre_drop _ _ i h1 (by decide)
      rw [hurl] at h2
      exact Bool.false_ne_true h2

/-- C10 (amended).  When a `userId` is present, the interceptor sets the
`X-User-ID` header to it; provided the URL is nonempty and neither the URL
nor the id already contains the substring `'userId='`, the rewritten URL
contains `'userId='` exactly once (appended with `'?'` when the URL has no
query string, with `'&'` otherwise); a URL that has a `'?'` and already
contains `'userId='` is left unchanged; and with no stored `userId` the
config passes through untouched.  (When `'userId='` occurs in a URL without
any `'?'`, `?userId=<id>` is still appended and the substring is
duplicated — the refuted corner of the original claim.) -/
theorem interceptor_appends_userid :
    (∀ uid url : List Char, url ≠ [] → countSub userIdKey uid = 0 →
        containsSub userIdKey url = false →
        countSub userIdKey ((interceptRequest (some uid) ⟨url, none⟩).url) = 1 ∧
          (interceptRequest (some uid) ⟨url, none⟩).xUserIdHeader = some uid) ∧
    (∀ uid url : List Char, containsSub ['?'] url = true →
        containsSub userIdKey url = true →
        (interceptRequest (some uid) ⟨url, none⟩).url = url) ∧
    (∀ c : ReqConfig, interceptRequest none c = c) := by
  refine ⟨?_, ?_, fun c => rfl⟩
  · intro uid url hne hu hurl
    have hne' : url.isEmpty = false := by
      cases url with
      | nil => exact absurd rfl hne
      | cons x xs => rfl
    have hne2 : ¬url.isEmpty = true := by simp [hne']
    refine ⟨?_, rfl⟩
    show countSub userIdKey (interceptUrl uid url) = 1
    unfold interceptUrl
    by_cases hq : containsSub ['?'] url = false
    · rw [if_pos ⟨hne2, hq⟩]
      rw [countSub_append_of_no_occurrence _ _ _
        (no_key_occurrence_before_append url uid '?' (by decide) hurl)]
      exact countSub_key_fragment uid '?' (by decide) hu
    · rw [if_neg (fun hcond => hq hcond.2), if_pos ⟨hne2, hurl⟩]
      rw [countSub_append_of_no_occurrence _ _ _
        (no_key_occurrence_before_append url uid '&' (by decide) hurl)]
      exact countSub_key_fragment uid '&' (by decide) hu
  · intro uid url hq hk
    show interceptUrl uid url = url
    unfold interceptUrl
    rw [if_neg (fun hcond => by simp [hq] at hcond),
        if_neg (fun hcond => by simp [hk] at hcond)]

/-- Witness for `interceptor_appends_userid`: the URL `"/a"` gains
`?userId=u1` with the substring occurring once and the header set; the URL
`"?userId="` is left unchanged. -/
theorem interceptor_appends_userid_witness :
    (countSub userIdKey ((interceptRequest (some ['u', '1']) ⟨['/', 'a'], none⟩).url) = 1 ∧
      (interceptRequest (some ['u', '1']) ⟨['/', 'a'], none⟩).xUserIdHeader
        = some ['u', '1']) ∧
      (interceptRequest (some ['u', '1'])
          ⟨['?', 'u', 's', 'e', 'r', 'I', 'd', '='], none⟩).url
        = ['?', 'u', 's', 'e', 'r', 'I', 'd', '='] :=
  ⟨interceptor_appends_userid.1 ['u', '1'] ['/', 'a'] (by decide) (by decide) (by decide),
   interceptor_appends_userid.2.1 ['u', '1'] ['?', 'u', 's', 'e', 'r', 'I', 'd', '=']
     (by decide) (by decide)⟩
